import Mathlib

/-!
Verification of the camera auto-framing and constrained-navigation core of
the Echoes-of-Lagos web viewer (src/main.js).

The development shallowly embeds the framing computation performed in the
model-load callback (src/main.js lines 93-122) and the input state machine
formed by the mousedown/mouseup/mousemove handlers (lines 46-71), the
per-frame update loop (lines 195-205) and the reset button (lines 190-191),
over real-valued vectors.  Behaviour of the OrbitControls library that the
viewer configures but whose source is not part of this repository is
modelled from the specification and marked as such in doc comments.
-/

noncomputable section

/-- Vector of three reals, mirroring THREE.Vector3. -/
structure Vec3 where
  x : ℝ
  y : ℝ
  z : ℝ

namespace Vec3

/-- Componentwise addition (THREE.Vector3.add). -/
def add (a b : Vec3) : Vec3 := ⟨a.x + b.x, a.y + b.y, a.z + b.z⟩

/-- Scalar multiple (THREE.Vector3.multiplyScalar). -/
def smul (c : ℝ) (v : Vec3) : Vec3 := ⟨c * v.x, c * v.y, c * v.z⟩

/-- Componentwise subtraction (THREE.Vector3.sub). -/
def sub (a b : Vec3) : Vec3 := ⟨a.x - b.x, a.y - b.y, a.z - b.z⟩

/-- Euclidean length (THREE.Vector3.length). -/
def norm (v : Vec3) : ℝ := Real.sqrt (v.x ^ 2 + v.y ^ 2 + v.z ^ 2)

/-- Euclidean distance between two points (THREE.Vector3.distanceTo). -/
def dist (a b : Vec3) : ℝ := (a.sub b).norm

/-- Unit vector in the direction of `v` (THREE.Vector3.normalize). -/
def normalize (v : Vec3) : Vec3 := smul (1 / v.norm) v

/-- Translate `a` by `s` times `v` (THREE.Vector3.addScaledVector). -/
def addScaledVector (a : Vec3) (v : Vec3) (s : ℝ) : Vec3 := a.add (smul s v)

/-- The origin. -/
def zero : Vec3 := ⟨0, 0, 0⟩

end Vec3

/-- Full-quadrant arctangent, the usual `atan2 y x` convention
(THREE.Spherical uses `Math.atan2` to read an azimuth off a position). -/
def atan2 (y x : ℝ) : ℝ :=
  if 0 < x then Real.arctan (y / x)
  else if x < 0 ∧ 0 ≤ y then Real.arctan (y / x) + Real.pi
  else if x < 0 ∧ y < 0 then Real.arctan (y / x) - Real.pi
  else if x = 0 ∧ 0 < y then Real.pi / 2
  else if x = 0 ∧ y < 0 then -(Real.pi / 2)
  else 0

/-- The field of view the camera is constructed with (src/main.js line 27). -/
def cameraFovDegrees : ℝ := 75

/-- Everything the load callback derives from the bounding-box size and
installs on the camera and the controls (src/main.js lines 98-120). -/
structure FrameResult where
  maxDim : ℝ
  distance : ℝ
  position : Vec3
  near : ℝ
  far : ℝ
  target : Vec3
  minDistance : ℝ
  maxDistance : ℝ

/-- The framing computation of the load callback (src/main.js lines 98-120):
`maxDim = Math.max(size.x, size.y, size.z)`, `fov = camera.fov * π/180`,
`distance = maxDim / (2 * tan(fov/2)) * 1.2`, camera position
`(distance*0.18*cos(π/4), distance*0.4, distance*0.18*sin(π/4))`,
`near = maxDim/100`, `far = maxDim*100`, target the origin (the model is
recentred there), `minDistance = maxDim*0.1`, `maxDistance = maxDim*5`. -/
def frame (size : Vec3) (fovDegrees : ℝ) : FrameResult :=
  let maxDim := max size.x (max size.y size.z)
  let fov := fovDegrees * (Real.pi / 180)
  let distance := maxDim / (2 * Real.tan (fov / 2)) * 1.2
  let angle := Real.pi / 4
  let zoomMultiplier : ℝ := 0.18
  let heightMultiplier : ℝ := 0.4
  { maxDim := maxDim
    distance := distance
    position := ⟨distance * zoomMultiplier * Real.cos angle,
                 distance * heightMultiplier,
                 distance * zoomMultiplier * Real.sin angle⟩
    near := maxDim / 100
    far := maxDim * 100
    target := Vec3.zero
    minDistance := maxDim * 0.1
    maxDistance := maxDim * 5 }

/-- Damping factor of the orbit controls (src/main.js line 36). -/
def dampingFactor : ℝ := 0.1

/-- Rotate speed of the orbit controls (src/main.js line 39). -/
def rotateSpeed : ℝ := 0.5

/-- Lower polar clamp (src/main.js line 40). -/
def minPolarAngle : ℝ := Real.pi / 3

/-- Upper polar clamp (src/main.js line 41): equal to the lower one, locking
the tilt. -/
def maxPolarAngle : ℝ := Real.pi / 3

/-- Lower azimuth clamp (src/main.js line 42). -/
def minAzimuthAngle : ℝ := -(Real.pi / 4)

/-- Upper azimuth clamp (src/main.js line 43). -/
def maxAzimuthAngle : ℝ := Real.pi / 4

/-- Dolly speed of the shift-drag gesture (src/main.js line 66). -/
def zoomSpeed : ℝ := 0.5

/-- Clamp `x` into `[lo, hi]` (THREE.MathUtils.clamp). -/
def clamp (x lo hi : ℝ) : ℝ := max lo (min x hi)

/-- Spherical-to-cartesian conversion used by the orbit controller to place
the camera around its target (THREE.Vector3.setFromSpherical:
`x = r sin φ sin θ`, `y = r cos φ`, `z = r sin φ cos θ`). -/
def sphericalToCartesian (radius polar azimuth : ℝ) : Vec3 :=
  ⟨radius * Real.sin polar * Real.sin azimuth,
   radius * Real.cos polar,
   radius * Real.sin polar * Real.cos azimuth⟩

/-- Baseline snapshot captured by `controls.saveState()` right after framing
(src/main.js line 122), holding the pose and the zoom limits in force. -/
structure SavedState where
  position0 : Vec3
  target0 : Vec3
  minDistance0 : ℝ
  maxDistance0 : ℝ
  azimuth0 : ℝ
  polar0 : ℝ
  radius0 : ℝ
  camDir0 : Vec3

/-- The mutable viewer state the event handlers and the frame loop act on:
the `controls.enabled` flag, the shift-drag bookkeeping (`isShiftDragging`,
`previousY`, src/main.js lines 46-47), the camera position and world
direction, the controls target, the orbit controller's spherical state and
pending (damped) rotation input, the zoom limits, and the saved baseline. -/
structure ViewerState where
  enabled : Bool
  isShiftDragging : Bool
  previousY : ℝ
  camPos : Vec3
  camDir : Vec3
  target : Vec3
  azimuth : ℝ
  polar : ℝ
  radius : ℝ
  pendingAzimuth : ℝ
  minDistance : ℝ
  maxDistance : ℝ
  saved : SavedState

/-- Input events delivered to the viewer: the three mouse events the source
listens to (with the fields the DOM supplies), orbit-rotate and wheel input
routed to the controls, the per-frame `controls.update()` tick and the
reset-button click. -/
inductive Event where
  | mousedown (button : ℕ) ( shiftKey : Bool) (clientY : ℝ)
  | mouseup (button : ℕ) ( shiftKey : Bool)
  | mousemove (clientY : ℝ) ( shiftKey : Bool)
  | orbitRotate (delta : ℝ)
  | scroll (delta : ℝ)
  | update
  | reset

/-- The mousedown handler (src/main.js lines 48-55): on the primary button
with the shift modifier held, disable the orbit controls, arm the drag flag
and record the pointer's vertical coordinate; otherwise do nothing. -/
def onMousedown (button : ℕ) ( shiftKey : Bool) (clientY : ℝ)
    (s : ViewerState) : ViewerState :=
  if button = 0 ∧ shiftKey = true then
    { s with enabled := false, isShiftDragging := true, previousY := clientY }
  else s

/-- The mouseup handler (src/main.js lines 56-61): it reads no field of the
event; if a shift drag is active, re-enable the controls and clear the flag. -/
def onMouseup (s : ViewerState) : ViewerState :=
  if s.isShiftDragging = true then
    { s with enabled := true, isShiftDragging := false }
  else s

/-- The mousemove handler (src/main.js lines 62-71): while a shift drag is
active, dolly the camera along its current world direction by
`-deltaY * zoomSpeed` and record the new coordinate; the handler reads only
`clientY` and in particular does not consult the modifier state. -/
def onMousemove (clientY : ℝ) (s : ViewerState) : ViewerState :=
  if s.isShiftDragging = true then
    let deltaY := clientY - s.previousY
    { s with previousY := clientY,
             camPos := s.camPos.addScaledVector s.camDir (-deltaY * zoomSpeed) }
  else s

/-- Modelled from the spec: the OrbitControls rotate input, whose source is
not part of this repository (spec §4.2, orbit mode is "standard
drag-to-rotate ... with inertial damping", and on entering the dolly gesture
"orbit mode is disabled entirely").  A rotate gesture accumulates a pending
azimuth delta scaled by `rotateSpeed`; input is ignored while disabled. -/
def onOrbitRotate (delta : ℝ) (s : ViewerState) : ViewerState :=
  if s.enabled = true then
    { s with pendingAzimuth := s.pendingAzimuth + rotateSpeed * delta }
  else s

/-- Modelled from the spec: the OrbitControls wheel zoom, whose source is not
part of this repository (spec §4.2, "optional scroll-to-zoom clamped to
[minDistance, maxDistance]"); ignored while disabled. -/
def onScroll (delta : ℝ) (s : ViewerState) : ViewerState :=
  if s.enabled = true then
    { s with radius := clamp (s.radius + delta) s.minDistance s.maxDistance }
  else s

/-- Modelled from the spec: `controls.update()`, whose source is not part of
this repository (spec §4.2).  When enabled it blends the pending rotation in
by the damping factor, clamps the polar angle to the locked value and the
azimuth to the arc, clamps the radius to the zoom limits, and places the
camera on the sphere around the target facing it.  When disabled, no
rotation or zoom update occurs. -/
def onUpdate (s : ViewerState) : ViewerState :=
  if s.enabled = true then
    let azimuth := clamp (s.azimuth + dampingFactor * s.pendingAzimuth)
      minAzimuthAngle maxAzimuthAngle
    let polar := clamp s.polar minPolarAngle maxPolarAngle
    let radius := clamp s.radius s.minDistance s.maxDistance
    let camPos := s.target.add (sphericalToCartesian radius polar azimuth)
    { s with azimuth := azimuth, polar := polar, radius := radius,
             pendingAzimuth := (1 - dampingFactor) * s.pendingAzimuth,
             camPos := camPos,
             camDir := (s.target.sub camPos).normalize }
  else s

/-- Modelled from the spec: `controls.reset()` (wired to the reset button at
src/main.js lines 190-191), whose source is not part of this repository:
"A reset command restores the camera to the pose and limits captured
immediately after framing". -/
def onReset (s : ViewerState) : ViewerState :=
  { s with camPos := s.saved.position0, target := s.saved.target0,
           minDistance := s.saved.minDistance0, maxDistance := s.saved.maxDistance0,
           azimuth := s.saved.azimuth0, polar := s.saved.polar0,
           radius := s.saved.radius0, camDir := s.saved.camDir0,
           pendingAzimuth := 0 }

/-- Modelled from the spec: `controls.saveState()` (src/main.js line 122)
captures the baseline snapshot "taken once, right after frame() succeeds". -/
def saveState (s : ViewerState) : ViewerState :=
  { s with saved := { position0 := s.camPos, target0 := s.target,
                      minDistance0 := s.minDistance, maxDistance0 := s.maxDistance,
                      azimuth0 := s.azimuth, polar0 := s.polar,
                      radius0 := s.radius, camDir0 := s.camDir } }

/-- Dispatch of one event to the handlers wired in src/main.js.  The mouseup
listener discards the event object (line 56) and the mousemove listener reads
only `clientY` (line 64), so those fields are dropped here exactly as the
source drops them. -/
def applyEvent (e : Event) (s : ViewerState) : ViewerState :=
  match e with
  | .mousedown b k y => onMousedown b k y s
  | .mouseup _ _ => onMouseup s
  | .mousemove y _ => onMousemove y s
  | .orbitRotate d => onOrbitRotate d s
  | .scroll d => onScroll d s
  | .update => onUpdate s
  | .reset => onReset s

/-- Left fold of a list of events over a state. -/
def applyEvents (es : List Event) (s : ViewerState) : ViewerState :=
  es.foldl (fun t e => applyEvent e t) s

/-- The viewer state right after the load callback finishes (src/main.js
lines 98-122): camera placed by `frame` and looking at the origin, controls
enabled with no active drag, the controller's spherical state read off the
framed position (THREE.Spherical.setFromVector3), then `controls.update()`
and `controls.saveState()` in the order the source calls them. -/
def framedState (size : Vec3) (fovDegrees : ℝ) : ViewerState :=
  let f := frame size fovDegrees
  saveState (onUpdate
    { enabled := true
      isShiftDragging := false
      previousY := 0
      camPos := f.position
      camDir := (f.target.sub f.position).normalize
      target := f.target
      azimuth := atan2 f.position.x f.position.z
      polar := Real.arccos (f.position.y / f.position.norm)
      radius := f.position.norm
      pendingAzimuth := 0
      minDistance := f.minDistance
      maxDistance := f.maxDistance
      saved := { position0 := Vec3.zero, target0 := Vec3.zero,
                 minDistance0 := 0, maxDistance0 := 0,
                 azimuth0 := 0, polar0 := 0, radius0 := 0,
                 camDir0 := Vec3.zero } })

/-- Sample state in the middle of a shift-drag gesture: camera 10 units in
front of the origin looking back at it, last pointer coordinate 300. -/
def sampleDragState : ViewerState :=
  { enabled := false
    isShiftDragging := true
    previousY := 300
    camPos := ⟨0, 0, 10⟩
    camDir := ⟨0, 0, -1⟩
    target := Vec3.zero
    azimuth := 0
    polar := Real.pi / 3
    radius := 10
    pendingAzimuth := 0
    minDistance := 1
    maxDistance := 50
    saved := { position0 := ⟨0, 0, 10⟩, target0 := Vec3.zero,
               minDistance0 := 1, maxDistance0 := 50,
               azimuth0 := 0, polar0 := Real.pi / 3, radius0 := 10,
               camDir0 := ⟨0, 0, -1⟩ } }

/-- Invariant of the orbit controller: the polar angle sits at the locked
value, the azimuth inside the clamp arc, and the saved baseline pose (which
a reset restores) satisfies the same bounds. -/
def OrbitInv (s : ViewerState) : Prop :=
  s.polar = Real.pi / 3
  ∧ minAzimuthAngle ≤ s.azimuth ∧ s.azimuth ≤ maxAzimuthAngle
  ∧ s.saved.polar0 = Real.pi / 3
  ∧ minAzimuthAngle ≤ s.saved.azimuth0 ∧ s.saved.azimuth0 ≤ maxAzimuthAngle

/-- Orbit-input events: rotate drags, wheel zoom, and the per-frame update —
the inputs the orbit controller responds to. -/
def OrbitInput (e : Event) : Prop :=
  match e with
  | .orbitRotate _ => True
  | .scroll _ => True
  | .update => True
  | _ => False

theorem Vec3.norm_nonneg (v : Vec3) : 0 ≤ v.norm := Real.sqrt_nonneg _

theorem Vec3.sq_norm (v : Vec3) :
    v.norm ^ 2 = v.x ^ 2 + v.y ^ 2 + v.z ^ 2 := by
  have h : 0 ≤ v.x ^ 2 + v.y ^ 2 + v.z ^ 2 := by positivity
  simpa [Vec3.norm] using Real.sq_sqrt h

theorem le_clamp (x lo hi : ℝ) : lo ≤ clamp x lo hi := le_max_left _ _

theorem clamp_le (x : ℝ) {lo hi : ℝ} (h : lo ≤ hi) : clamp x lo hi ≤ hi :=
  max_le h (min_le_right _ _)

theorem clamp_fixed (x a : ℝ) : clamp x a a = a :=
  max_eq_left (min_le_right _ _)

/-- The squared distance of the framed camera position from the target is
`distance^2 * (0.18^2 + 0.4^2)`: the azimuthal factors collapse by
`cos^2 + sin^2 = 1`. -/
theorem frame_dist_sq (size : Vec3) (fovDegrees : ℝ) :
    (Vec3.dist (frame size fovDegrees).position (frame size fovDegrees).target) ^ 2
      = (frame size fovDegrees).distance ^ 2 * 0.1924 := by
  have hsc : Real.cos (Real.pi / 4) ^ 2 + Real.sin (Real.pi / 4) ^ 2 = 1 :=
    Real.cos_sq_add_sin_sq _
  simp only [Vec3.dist, frame, Vec3.sub, Vec3.zero]
  rw [Vec3.sq_norm]
  linear_combination
    ((max size.x (max size.y size.z)) /
        (2 * Real.tan (fovDegrees * (Real.pi / 180) / 2)) * 1.2) ^ 2 * 0.0324 * hsc

/-- Numeric upper bound `√0.1924 < 0.44` for the framing-offset magnitude. -/
theorem sqrt_mul_self_band_hi : Real.sqrt 0.1924 < 0.44 := by
  have h : (0.1924 : ℝ) < 0.44 ^ 2 := by norm_num
  have := Real.sqrt_lt_sqrt (by norm_num : (0 : ℝ) ≤ 0.1924) h
  calc Real.sqrt 0.1924 < Real.sqrt (0.44 ^ 2) := this
    _ = 0.44 := by
        rw [Real.sqrt_sq (by norm_num : (0 : ℝ) ≤ 0.44)]

/-- Numeric lower bound `0.43 < √0.1924` for the framing-offset magnitude. -/
theorem sqrt_mul_self_band_lo : 0.43 < Real.sqrt 0.1924 := by
  have h : (0.43 : ℝ) ^ 2 < 0.1924 := by norm_num
  have := Real.sqrt_lt_sqrt (by norm_num : (0 : ℝ) ≤ 0.43 ^ 2) h
  calc (0.43 : ℝ) = Real.sqrt (0.43 ^ 2) := by
        rw [Real.sqrt_sq (by norm_num : (0 : ℝ) ≤ 0.43)]
    _ < Real.sqrt 0.1924 := this

/-- With a positive bounding size and a field of view strictly between 0° and
180°, the framing distance `maxDim / (2 tan(fov/2)) * 1.2` is positive. -/
theorem frame_distance_pos (size : Vec3) (fovDegrees : ℝ)
    (h0 : 0 < max size.x (max size.y size.z))
    (h1 : 0 < fovDegrees) (h2 : fovDegrees < 180) :
    0 < (frame size fovDegrees).distance := by
  have hpi := Real.pi_pos
  have ha : 0 < fovDegrees * (Real.pi / 180) / 2 := by positivity
  have hb : fovDegrees * (Real.pi / 180) / 2 < Real.pi / 2 := by nlinarith
  have htan : 0 < Real.tan (fovDegrees * (Real.pi / 180) / 2) :=
    Real.tan_pos_of_pos_of_lt_pi_div_two ha hb
  simp only [frame]
  positivity

/-- The framed camera's distance from the target equals
`distance * √(0.18² + 0.4²) = distance * √0.1924`, given a positive distance. -/
theorem frame_dist_eq (size : Vec3) (fovDegrees : ℝ)
    (hd : 0 < (frame size fovDegrees).distance) :
    Vec3.dist (frame size fovDegrees).position (frame size fovDegrees).target
      = (frame size fovDegrees).distance * Real.sqrt 0.1924 := by
  have hnn : 0 ≤ Vec3.dist (frame size fovDegrees).position (frame size fovDegrees).target :=
    Vec3.norm_nonneg _
  have hsq := frame_dist_sq size fovDegrees
  have : Vec3.dist (frame size fovDegrees).position (frame size fovDegrees).target
      = Real.sqrt ((frame size fovDegrees).distance ^ 2 * 0.1924) := by
    rw [← hsq, Real.sqrt_sq hnn]
  rw [this, Real.sqrt_mul (by positivity), Real.sqrt_sq hd.le]

/-- C1 (amended): for every bounding volume with `maxDim > 0` and field of view
in (0°, 180°), the framed camera's Euclidean distance from the target equals
`√(0.18² + 0.4²) ≈ 0.4386` times the computed framing distance, so it lies in
the `[0.43, 0.44]` band of that distance — not in the claimed `[0.9, 1.3]`. -/
theorem c1_framing_offset_band (size : Vec3) (fovDegrees : ℝ)
    (h0 : 0 < max size.x (max size.y size.z))
    (h1 : 0 < fovDegrees) (h2 : fovDegrees < 180) :
    Vec3.dist (frame size fovDegrees).position (frame size fovDegrees).target
      = (frame size fovDegrees).distance * Real.sqrt 0.1924
    ∧ 0.43 * (frame size fovDegrees).distance
        < Vec3.dist (frame size fovDegrees).position (frame size fovDegrees).target
    ∧ Vec3.dist (frame size fovDegrees).position (frame size fovDegrees).target
        < 0.44 * (frame size fovDegrees).distance := by
  have hd := frame_distance_pos size fovDegrees h0 h1 h2
  have heq := frame_dist_eq size fovDegrees hd
  refine ⟨heq, ?_, ?_⟩
  · rw [heq, mul_comm 0.43]
    exact mul_lt_mul_of_pos_left sqrt_mul_self_band_lo hd
  · rw [heq, mul_comm 0.44]
    exact mul_lt_mul_of_pos_left sqrt_mul_self_band_hi hd

/-- Witness for C1 (amended) at bounding size (10,10,10) and fov 90°. -/
theorem c1_framing_offset_band_witness :
    Vec3.dist (frame ⟨10, 10, 10⟩ 90).position (frame ⟨10, 10, 10⟩ 90).target
      = (frame ⟨10, 10, 10⟩ 90).distance * Real.sqrt 0.1924
    ∧ 0.43 * (frame ⟨10, 10, 10⟩ 90).distance
        < Vec3.dist (frame ⟨10, 10, 10⟩ 90).position (frame ⟨10, 10, 10⟩ 90).target
    ∧ Vec3.dist (frame ⟨10, 10, 10⟩ 90).position (frame ⟨10, 10, 10⟩ 90).target
        < 0.44 * (frame ⟨10, 10, 10⟩ 90).distance :=
  c1_framing_offset_band ⟨10, 10, 10⟩ 90 (by norm_num [max_self])
    (by norm_num) (by norm_num)

/-- The framing distance at bounding size (10,10,10) and fov 90° is exactly 6:
`tan(45°) = 1`, so `distance = 10/2 * 1.2 = 6`. -/
theorem frame_distance_90_eq : (frame ⟨10, 10, 10⟩ 90).distance = 6 := by
  simp only [frame]
  have h : (90 : ℝ) * (Real.pi / 180) / 2 = Real.pi / 4 := by ring
  rw [h, Real.tan_pi_div_four]
  norm_num [max_self]

/-- C1 counterexample: at bounding size (10,10,10) and fov 90° the framed
camera sits `6·√0.1924 ≈ 2.63` from the target, outside the claimed
`[0.9, 1.3] * distance = [5.4, 7.8]` band. -/
theorem c1_framing_offset_band_cex :
    ¬ (0.9 * (frame ⟨10, 10, 10⟩ 90).distance
         ≤ Vec3.dist (frame ⟨10, 10, 10⟩ 90).position (frame ⟨10, 10, 10⟩ 90).target
       ∧ Vec3.dist (frame ⟨10, 10, 10⟩ 90).position (frame ⟨10, 10, 10⟩ 90).target
         ≤ 1.3 * (frame ⟨10, 10, 10⟩ 90).distance) := by
  rintro ⟨hlo, -⟩
  have hsq := frame_dist_sq ⟨10, 10, 10⟩ 90
  rw [frame_distance_90_eq] at hsq hlo
  have hnn : 0 ≤ Vec3.dist (frame ⟨10, 10, 10⟩ 90).position (frame ⟨10, 10, 10⟩ 90).target :=
    Vec3.norm_nonneg _
  nlinarith [hsq, hlo, hnn]

/-- C2: the load callback has no degenerate-geometry branch.  At a zero-size
bounding volume it propagates `maxDim = 0` straight into the camera math and
installs `distance = 0`, `near = 0`, `far = 0`, `minDistance = 0`,
`maxDistance = 0` and a camera position at the origin, for every field of
view — it never treats the degenerate volume as a load failure. -/
theorem c2_degenerate_installed (fovDegrees : ℝ) :
    (frame ⟨0, 0, 0⟩ fovDegrees).distance = 0
    ∧ (frame ⟨0, 0, 0⟩ fovDegrees).near = 0
    ∧ (frame ⟨0, 0, 0⟩ fovDegrees).far = 0
    ∧ (frame ⟨0, 0, 0⟩ fovDegrees).minDistance = 0
    ∧ (frame ⟨0, 0, 0⟩ fovDegrees).maxDistance = 0
    ∧ (frame ⟨0, 0, 0⟩ fovDegrees).position = Vec3.zero := by
  simp [frame, Vec3.zero, max_self]

/-- Strict monotone upper bound through squares: `x < b²` gives `√x < b`. -/
theorem sqrt_lt_of_sq_gt {x b : ℝ} (hx : 0 ≤ x) (hb : 0 ≤ b) (h : x < b ^ 2) :
    Real.sqrt x < b := by
  calc Real.sqrt x < Real.sqrt (b ^ 2) := Real.sqrt_lt_sqrt hx h
    _ = b := Real.sqrt_sq hb

/-- Strict monotone lower bound through squares: `a² < x` gives `a < √x`. -/
theorem lt_sqrt_of_sq_lt {a x : ℝ} (ha : 0 ≤ a) (h : a ^ 2 < x) :
    a < Real.sqrt x := by
  calc a = Real.sqrt (a ^ 2) := (Real.sqrt_sq ha).symm
    _ < Real.sqrt x := Real.sqrt_lt_sqrt (by positivity) h

/-- Rational bracketing of `√2`. -/
theorem sqrt_two_bounds : 1.414213 < Real.sqrt 2 ∧ Real.sqrt 2 < 1.414214 :=
  ⟨lt_sqrt_of_sq_lt (by norm_num) (by norm_num),
   sqrt_lt_of_sq_gt (by norm_num) (by norm_num) (by norm_num)⟩

/-- Rational bracketing of `√6`. -/
theorem sqrt_six_bounds : 2.449489 < Real.sqrt 6 ∧ Real.sqrt 6 < 2.449490 :=
  ⟨lt_sqrt_of_sq_lt (by norm_num) (by norm_num),
   sqrt_lt_of_sq_gt (by norm_num) (by norm_num) (by norm_num)⟩

/-- Exact value `cos(75°) = (√6 - √2)/4`, via `75° = 45° + 30°`. -/
theorem cos_five_pi_div_twelve :
    Real.cos (5 * Real.pi / 12) = (Real.sqrt 6 - Real.sqrt 2) / 4 := by
  have h : (5 : ℝ) * Real.pi / 12 = Real.pi / 4 + Real.pi / 6 := by ring
  rw [h, Real.cos_add, Real.cos_pi_div_four, Real.cos_pi_div_six,
    Real.sin_pi_div_four, Real.sin_pi_div_six]
  have h6 : Real.sqrt 6 = Real.sqrt 2 * Real.sqrt 3 := by
    rw [← Real.sqrt_mul (by norm_num : (0 : ℝ) ≤ 2)]
    norm_num
  rw [h6]
  ring

/-- Exact value `sin(75°) = (√6 + √2)/4`, via `75° = 45° + 30°`. -/
theorem sin_five_pi_div_twelve :
    Real.sin (5 * Real.pi / 12) = (Real.sqrt 6 + Real.sqrt 2) / 4 := by
  have h : (5 : ℝ) * Real.pi / 12 = Real.pi / 4 + Real.pi / 6 := by ring
  rw [h, Real.sin_add, Real.cos_pi_div_four, Real.cos_pi_div_six,
    Real.sin_pi_div_four, Real.sin_pi_div_six]
  have h6 : Real.sqrt 6 = Real.sqrt 2 * Real.sqrt 3 := by
    rw [← Real.sqrt_mul (by norm_num : (0 : ℝ) ≤ 2)]
    norm_num
  rw [h6]
  ring

/-- The half angle `37.5° = 5π/24` has positive cosine. -/
theorem cos_375_pos : 0 < Real.cos (5 * Real.pi / 24) := by
  have hpi := Real.pi_pos
  apply Real.cos_pos_of_mem_Ioo
  constructor
  · nlinarith
  · nlinarith

/-- Half-angle expression of the tangent at `37.5°`:
`tan θ = sin 2θ / (1 + cos 2θ)`. -/
theorem tan_375_eq :
    Real.tan (5 * Real.pi / 24)
      = Real.sin (5 * Real.pi / 12) / (1 + Real.cos (5 * Real.pi / 12)) := by
  have h2 : (5 : ℝ) * Real.pi / 12 = 2 * (5 * Real.pi / 24) := by ring
  have hc := cos_375_pos
  rw [h2, Real.sin_two_mul, Real.cos_two_mul, Real.tan_eq_sin_div_cos]
  rw [show 1 + (2 * Real.cos (5 * Real.pi / 24) ^ 2 - 1)
      = 2 * Real.cos (5 * Real.pi / 24) ^ 2 by ring]
  rw [eq_div_iff (by positivity)]
  field_simp
  ring

/-- Rational bracketing of `tan(37.5°)`: it lies in `(0.767, 0.768)`. -/
theorem tan_375_bounds :
    0.767 < Real.tan (5 * Real.pi / 24) ∧ Real.tan (5 * Real.pi / 24) < 0.768 := by
  obtain ⟨h2lo, h2hi⟩ := sqrt_two_bounds
  obtain ⟨h6lo, h6hi⟩ := sqrt_six_bounds
  rw [tan_375_eq, sin_five_pi_div_twelve, cos_five_pi_div_twelve]
  have hden : 0 < 1 + (Real.sqrt 6 - Real.sqrt 2) / 4 := by nlinarith
  constructor
  · rw [lt_div_iff hden]
    nlinarith
  · rw [div_lt_iff hden]
    nlinarith

/-- The framing distance at size (10,10,10) and fov 75° is
`10 / (2 tan(37.5°)) * 1.2 = 6 / tan(37.5°)`. -/
theorem frame_distance_75 :
    (frame ⟨10, 10, 10⟩ 75).distance = 6 / Real.tan (5 * Real.pi / 24) := by
  simp only [frame]
  have h : (75 : ℝ) * (Real.pi / 180) / 2 = 5 * Real.pi / 24 := by ring
  rw [h, max_self, max_self, div_mul_eq_mul_div]
  rw [show (10 : ℝ) * 1.2 = 2 * 6 by norm_num]
  rw [mul_div_mul_left 6 (Real.tan (5 * Real.pi / 24)) two_ne_zero]

/-- The framing distance at size (10,10,10) and fov 75° lies in (7.8, 7.9). -/
theorem frame_distance_75_bounds :
    7.8 < (frame ⟨10, 10, 10⟩ 75).distance
    ∧ (frame ⟨10, 10, 10⟩ 75).distance < 7.9 := by
  obtain ⟨htlo, hthi⟩ := tan_375_bounds
  have ht : 0 < Real.tan (5 * Real.pi / 24) := by linarith
  rw [frame_distance_75]
  constructor
  · rw [lt_div_iff ht]
    nlinarith
  · rw [div_lt_iff ht]
    nlinarith

/-- C3 (amended): at bounding size (10,10,10) and fov 75° the framing distance
is about 7.82 (it lies in (7.8, 7.9)), not 15.5; the derived limits are exactly
`minDistance = 1`, `maxDistance = 50`, `near = 0.1`, `far = 1000`. -/
theorem c3_scenario_values :
    (7.8 < (frame ⟨10, 10, 10⟩ 75).distance
      ∧ (frame ⟨10, 10, 10⟩ 75).distance < 7.9)
    ∧ (frame ⟨10, 10, 10⟩ 75).minDistance = 1
    ∧ (frame ⟨10, 10, 10⟩ 75).maxDistance = 50
    ∧ (frame ⟨10, 10, 10⟩ 75).near = 0.1
    ∧ (frame ⟨10, 10, 10⟩ 75).far = 1000 := by
  refine ⟨frame_distance_75_bounds, ?_, ?_, ?_, ?_⟩ <;>
    simp [frame, max_self] <;> norm_num

/-- C3 counterexample: the framing distance at size (10,10,10), fov 75° is not
approximately 15.5 — it differs from 15.5 by more than 7. -/
theorem c3_scenario_cex :
    ¬ |(frame ⟨10, 10, 10⟩ 75).distance - 15.5| ≤ 7 := by
  obtain ⟨hlo, hhi⟩ := frame_distance_75_bounds
  rw [abs_le]
  push_neg
  intro h
  linarith

/-- Scaling a vector scales its length by the absolute scalar. -/
theorem Vec3.norm_smul (c : ℝ) (v : Vec3) :
    (Vec3.smul c v).norm = |c| * v.norm := by
  simp only [Vec3.smul, Vec3.norm]
  rw [show (c * v.x) ^ 2 + (c * v.y) ^ 2 + (c * v.z) ^ 2
      = c ^ 2 * (v.x ^ 2 + v.y ^ 2 + v.z ^ 2) by ring]
  rw [Real.sqrt_mul (sq_nonneg c), Real.sqrt_sq_eq_abs]

/-- Moving a point by `c` times a vector moves it by `|c|` times the vector's
length. -/
theorem Vec3.dist_addScaledVector (a d : Vec3) (c : ℝ) :
    Vec3.dist (a.addScaledVector d c) a = |c| * d.norm := by
  have h : (a.addScaledVector d c).sub a = Vec3.smul c d := by
    simp only [Vec3.addScaledVector, Vec3.add, Vec3.sub, Vec3.smul, Vec3.mk.injEq]
    refine ⟨by ring, by ring, by ring⟩
  rw [Vec3.dist, h, Vec3.norm_smul]

/-- C4: while the shift-drag gesture is active, a pointer move to `y`
translates the camera along its current forward unit vector by exactly
`-(y - previousY) * zoomSpeed` with `zoomSpeed = 0.5`, records `y` as the
new previous coordinate, and (for a unit direction) moves the camera by
`|y - previousY| * zoomSpeed` units. -/
theorem c4_dolly_translation (s : ViewerState) (y : ℝ)
    (h : s.isShiftDragging = true) (hdir : s.camDir.norm = 1) :
    (onMousemove y s).camPos
      = s.camPos.addScaledVector s.camDir (-(y - s.previousY) * zoomSpeed)
    ∧ (onMousemove y s).previousY = y
    ∧ zoomSpeed = 0.5
    ∧ Vec3.dist (onMousemove y s).camPos s.camPos
        = |y - s.previousY| * zoomSpeed := by
  have hmove : onMousemove y s
      = { s with previousY := y,
                 camPos := s.camPos.addScaledVector s.camDir
                   (-(y - s.previousY) * zoomSpeed) } := by
    simp only [onMousemove, h, if_true]
  rw [hmove]
  refine ⟨rfl, rfl, rfl, ?_⟩
  rw [Vec3.dist_addScaledVector, hdir, mul_one, abs_mul, abs_neg]
  norm_num [zoomSpeed, abs_of_nonneg]

theorem sampleDragState_dir_norm : sampleDragState.camDir.norm = 1 := by
  show Vec3.norm ⟨0, 0, -1⟩ = 1
  rw [Vec3.norm]
  norm_num

/-- Witness for C4: dragging from `previousY = 300` to `y = 260`
(`deltaY = -40`) moves the camera by 20 units along its view direction. -/
theorem c4_dolly_translation_witness :
    ((onMousemove 260 sampleDragState).camPos
      = sampleDragState.camPos.addScaledVector sampleDragState.camDir
          (-(260 - sampleDragState.previousY) * zoomSpeed)
    ∧ (onMousemove 260 sampleDragState).previousY = 260
    ∧ zoomSpeed = 0.5
    ∧ Vec3.dist (onMousemove 260 sampleDragState).camPos sampleDragState.camPos
        = |(260 : ℝ) - sampleDragState.previousY| * zoomSpeed)
    ∧ |(260 : ℝ) - sampleDragState.previousY| * zoomSpeed = 20 := by
  constructor
  · exact c4_dolly_translation sampleDragState 260 rfl sampleDragState_dir_norm
  · show |(260 : ℝ) - 300| * zoomSpeed = 20
    rw [zoomSpeed]
    norm_num

/-- One event keeps the flags complementary: `controls.enabled` is the
negation of `isShiftDragging` after any single handler runs. -/
theorem enabled_eq_not_drag_step (e : Event) (s : ViewerState)
    (h : s.enabled = !s.isShiftDragging) :
    (applyEvent e s).enabled = !(applyEvent e s).isShiftDragging := by
  cases e <;>
    simp only [applyEvent, onMousedown, onMouseup, onMousemove, onOrbitRotate,
      onScroll, onUpdate, onReset] <;>
    (try split_ifs) <;> simp_all

/-- Any event sequence keeps the flags complementary. -/
theorem enabled_eq_not_drag_run (es : List Event) (s : ViewerState)
    (h : s.enabled = !s.isShiftDragging) :
    (applyEvents es s).enabled = !(applyEvents es s).isShiftDragging := by
  induction es generalizing s with
  | nil => exact h
  | cons e es ih => exact ih _ (enabled_eq_not_drag_step e s h)

theorem framedState_enabled (size : Vec3) (fovDegrees : ℝ) :
    (framedState size fovDegrees).enabled = true := rfl

theorem framedState_not_dragging (size : Vec3) (fovDegrees : ℝ) :
    (framedState size fovDegrees).isShiftDragging = false := rfl

/-- C8: from the framed initial state, after any sequence of input events
exactly one of the two input modes is active — orbit input is enabled
precisely when the shift-drag flag is down. -/
theorem c8_mutual_exclusion (size : Vec3) (fovDegrees : ℝ) (es : List Event) :
    (applyEvents es (framedState size fovDegrees)).enabled
      = !(applyEvents es (framedState size fovDegrees)).isShiftDragging
    ∧ ((applyEvents es (framedState size fovDegrees)).enabled = true
        ↔ (applyEvents es (framedState size fovDegrees)).isShiftDragging = false) := by
  have h := enabled_eq_not_drag_run es (framedState size fovDegrees) rfl
  refine ⟨h, ?_⟩
  rw [h]
  cases (applyEvents es (framedState size fovDegrees)).isShiftDragging <;> simp

theorem minAzimuth_le_maxAzimuth : minAzimuthAngle ≤ maxAzimuthAngle := by
  have := Real.pi_pos
  simp only [minAzimuthAngle, maxAzimuthAngle]
  linarith

theorem clamp_polar_eq (x : ℝ) :
    clamp x minPolarAngle maxPolarAngle = Real.pi / 3 := by
  simp only [minPolarAngle, maxPolarAngle]
  exact clamp_fixed _ _

/-- Every single event preserves the orbit invariant. -/
theorem orbitInv_step (e : Event) (s : ViewerState) (h : OrbitInv s) :
    OrbitInv (applyEvent e s) := by
  obtain ⟨h1, h2, h3, h4, h5, h6⟩ := h
  cases e with
  | mousedown b k y =>
      simp only [applyEvent, onMousedown]
      split_ifs <;> exact ⟨h1, h2, h3, h4, h5, h6⟩
  | mouseup b k =>
      simp only [applyEvent, onMouseup]
      split_ifs <;> exact ⟨h1, h2, h3, h4, h5, h6⟩
  | mousemove y k =>
      simp only [applyEvent, onMousemove]
      split_ifs <;> exact ⟨h1, h2, h3, h4, h5, h6⟩
  | orbitRotate d =>
      simp only [applyEvent, onOrbitRotate]
      split_ifs <;> exact ⟨h1, h2, h3, h4, h5, h6⟩
  | scroll d =>
      simp only [applyEvent, onScroll]
      split_ifs <;> exact ⟨h1, h2, h3, h4, h5, h6⟩
  | update =>
      simp only [applyEvent, onUpdate]
      split_ifs with hen
      · exact ⟨clamp_polar_eq _, le_clamp _ _ _,
          clamp_le _ minAzimuth_le_maxAzimuth, h4, h5, h6⟩
      · exact ⟨h1, h2, h3, h4, h5, h6⟩
  | reset =>
      simp only [applyEvent, onReset]
      exact ⟨h4, h5, h6, h4, h5, h6⟩

/-- Every event sequence preserves the orbit invariant. -/
theorem orbitInv_run (es : List Event) (s : ViewerState) (h : OrbitInv s) :
    OrbitInv (applyEvents es s) := by
  induction es generalizing s with
  | nil => exact h
  | cons e es ih => exact ih _ (orbitInv_step e s h)

/-- The framed initial state satisfies the orbit invariant: the
`controls.update()` call in the load callback clamps both angles before the
baseline snapshot is taken. -/
theorem orbitInv_framedState (size : Vec3) (fovDegrees : ℝ) :
    OrbitInv (framedState size fovDegrees) := by
  refine ⟨?_, ?_, ?_, ?_, ?_, ?_⟩ <;>
    simp only [framedState, saveState, onUpdate, if_true] <;>
    first
      | exact clamp_polar_eq _
      | exact le_clamp _ _ _
      | exact clamp_le _ minAzimuth_le_maxAzimuth

/-- C6: after the framing update, every sequence of input events leaves the
controller's polar angle exactly at `π/3` and its azimuth inside
`[-π/4, π/4]`. -/
theorem c6_orbit_angles_clamped (size : Vec3) (fovDegrees : ℝ) (es : List Event) :
    (applyEvents es (framedState size fovDegrees)).polar = Real.pi / 3
    ∧ -(Real.pi / 4) ≤ (applyEvents es (framedState size fovDegrees)).azimuth
    ∧ (applyEvents es (framedState size fovDegrees)).azimuth ≤ Real.pi / 4 := by
  have h := orbitInv_run es _ (orbitInv_framedState size fovDegrees)
  exact ⟨h.1, h.2.1, h.2.2.1⟩

/-- No input event touches the saved baseline snapshot: only the load
callback's `controls.saveState()` writes it. -/
theorem saved_step (e : Event) (s : ViewerState) :
    (applyEvent e s).saved = s.saved := by
  cases e <;>
    simp only [applyEvent, onMousedown, onMouseup, onMousemove, onOrbitRotate,
      onScroll, onUpdate, onReset] <;>
    (try split_ifs) <;> rfl

theorem saved_run (es : List Event) (s : ViewerState) :
    (applyEvents es s).saved = s.saved := by
  induction es generalizing s with
  | nil => rfl
  | cons e es ih => exact (ih (applyEvent e s)).trans (saved_step e s)

/-- C7: whatever dolly and orbit operations run after a successful framing,
a reset restores the camera position, the target and both zoom limits to
exactly the baseline snapshot captured right after framing. -/
theorem c7_reset_restores_baseline (size : Vec3) (fovDegrees : ℝ) (es : List Event) :
    (applyEvent .reset (applyEvents es (framedState size fovDegrees))).camPos
      = (framedState size fovDegrees).saved.position0
    ∧ (applyEvent .reset (applyEvents es (framedState size fovDegrees))).target
      = (framedState size fovDegrees).saved.target0
    ∧ (applyEvent .reset (applyEvents es (framedState size fovDegrees))).minDistance
      = (framedState size fovDegrees).saved.minDistance0
    ∧ (applyEvent .reset (applyEvents es (framedState size fovDegrees))).maxDistance
      = (framedState size fovDegrees).saved.maxDistance0 := by
  have h := saved_run es (framedState size fovDegrees)
  simp [applyEvent, onReset, h]

/-- While the controls are disabled, a single orbit-input event changes
neither azimuth, polar angle nor radius, and leaves both mode flags alone. -/
theorem frozen_step (e : Event) (s : ViewerState) (he : OrbitInput e)
    (hdis : s.enabled = false) :
    (applyEvent e s).azimuth = s.azimuth
    ∧ (applyEvent e s).polar = s.polar
    ∧ (applyEvent e s).radius = s.radius
    ∧ (applyEvent e s).enabled = false
    ∧ (applyEvent e s).isShiftDragging = s.isShiftDragging := by
  cases e <;> simp only [OrbitInput] at he <;>
    simp [applyEvent, onOrbitRotate, onScroll, onUpdate, hdis]

/-- While the controls are disabled, any sequence of orbit-input events
changes neither azimuth, polar angle nor radius. -/
theorem frozen_run (os : List Event) (s : ViewerState)
    (hos : ∀ e ∈ os, OrbitInput e) (hdis : s.enabled = false) :
    (applyEvents os s).azimuth = s.azimuth
    ∧ (applyEvents os s).polar = s.polar
    ∧ (applyEvents os s).radius = s.radius := by
  induction os generalizing s with
  | nil => exact ⟨rfl, rfl, rfl⟩
  | cons e os ih =>
      have he := hos e (List.mem_cons_self e os)
      have hstep := frozen_step e s he hdis
      have hrest := ih (applyEvent e s)
        (fun x hx => hos x (List.mem_cons_of_mem e hx)) hstep.2.2.2.1
      exact ⟨hrest.1.trans hstep.1, hrest.2.1.trans hstep.2.1,
        hrest.2.2.trans hstep.2.2.1⟩

/-- C5: in any reachable state with the shift-drag gesture active, orbit
input (rotate, wheel, update ticks — including any pending damped motion)
changes neither azimuth, polar angle nor radius; the mouseup ending the
gesture re-enables the controls, and the very next update applies pending
rotation again through the enabled branch. -/
theorem c5_gesture_blocks_orbit (size : Vec3) (fovDegrees : ℝ)
    (es os : List Event) (hos : ∀ e ∈ os, OrbitInput e)
    (hactive : (applyEvents es (framedState size fovDegrees)).isShiftDragging = true) :
    (applyEvents os (applyEvents es (framedState size fovDegrees))).azimuth
      = (applyEvents es (framedState size fovDegrees)).azimuth
    ∧ (applyEvents os (applyEvents es (framedState size fovDegrees))).polar
      = (applyEvents es (framedState size fovDegrees)).polar
    ∧ (applyEvents os (applyEvents es (framedState size fovDegrees))).radius
      = (applyEvents es (framedState size fovDegrees)).radius
    ∧ (∀ b k, (applyEvent (.mouseup b k)
        (applyEvents es (framedState size fovDegrees))).enabled = true)
    ∧ (∀ b k, (applyEvent .update (applyEvent (.mouseup b k)
        (applyEvents es (framedState size fovDegrees)))).azimuth
          = clamp ((applyEvents es (framedState size fovDegrees)).azimuth
              + dampingFactor
                * (applyEvents es (framedState size fovDegrees)).pendingAzimuth)
              minAzimuthAngle maxAzimuthAngle) := by
  have hdis : (applyEvents es (framedState size fovDegrees)).enabled = false := by
    have h := enabled_eq_not_drag_run es (framedState size fovDegrees) rfl
    rw [h, hactive]
    rfl
  have hfrozen := frozen_run os _ hos hdis
  have hup : ∀ b k, (applyEvent (.mouseup b k)
      (applyEvents es (framedState size fovDegrees)))
        = { applyEvents es (framedState size fovDegrees) with
              enabled := true, isShiftDragging := false } := by
    intro b k
    simp only [applyEvent, onMouseup, hactive, if_true]
  refine ⟨hfrozen.1, hfrozen.2.1, hfrozen.2.2, ?_, ?_⟩
  · intro b k
    rw [hup b k]
  · intro b k
    rw [hup b k]
    simp only [applyEvent, onUpdate, if_true]

/-- Witness for C5: after a shift-click (button 0, shift held) the drag is
active; a rotate, a wheel event and an update tick leave the azimuth where
it was, and a mouseup re-enables the controls. -/
theorem c5_gesture_blocks_orbit_witness :
    (applyEvents [Event.mousedown 0 true 300]
      (framedState ⟨10, 10, 10⟩ 90)).isShiftDragging = true
    ∧ (applyEvents [Event.orbitRotate 1, Event.scroll 2, Event.update]
        (applyEvents [Event.mousedown 0 true 300]
          (framedState ⟨10, 10, 10⟩ 90))).azimuth
      = (applyEvents [Event.mousedown 0 true 300]
          (framedState ⟨10, 10, 10⟩ 90)).azimuth
    ∧ (applyEvent (.mouseup 0 false)
        (applyEvents [Event.mousedown 0 true 300]
          (framedState ⟨10, 10, 10⟩ 90))).enabled = true := by
  have hos : ∀ e ∈ [Event.orbitRotate 1, Event.scroll 2, Event.update],
      OrbitInput e := by
    intro e he
    fin_cases he <;> trivial
  have hact : (applyEvents [Event.mousedown 0 true 300]
      (framedState ⟨10, 10, 10⟩ 90)).isShiftDragging = true := rfl
  have h := c5_gesture_blocks_orbit ⟨10, 10, 10⟩ 90 [Event.mousedown 0 true 300]
    [Event.orbitRotate 1, Event.scroll 2, Event.update] hos hact
  exact ⟨hact, h.1, h.2.2.2.1 0 false⟩

/-- C9: the framed camera pose starts exactly on the azimuth clamp boundary:
its azimuth about the origin, `atan2` of the x and z components, is `π/4`,
which is `maxAzimuthAngle`; any nonnegative azimuth increment is clamped
straight back, so orbiting can only go toward negative azimuth. -/
theorem c9_framed_azimuth_at_max (size : Vec3) (fovDegrees : ℝ)
    (h0 : 0 < max size.x (max size.y size.z))
    (h1 : 0 < fovDegrees) (h2 : fovDegrees < 180) :
    atan2 (frame size fovDegrees).position.x (frame size fovDegrees).position.z
      = Real.pi / 4
    ∧ maxAzimuthAngle = Real.pi / 4
    ∧ (∀ d, 0 ≤ d →
        clamp (Real.pi / 4 + d) minAzimuthAngle maxAzimuthAngle = Real.pi / 4) := by
  have hd := frame_distance_pos size fovDegrees h0 h1 h2
  have hx : (frame size fovDegrees).position.x
      = (frame size fovDegrees).distance * 0.18 * Real.cos (Real.pi / 4) := rfl
  have hz : (frame size fovDegrees).position.z
      = (frame size fovDegrees).distance * 0.18 * Real.sin (Real.pi / 4) := rfl
  have hxz : (frame size fovDegrees).position.x
      = (frame size fovDegrees).position.z := by
    rw [hx, hz, Real.cos_pi_div_four, Real.sin_pi_div_four]
  have hzpos : 0 < (frame size fovDegrees).position.z := by
    rw [hz, Real.sin_pi_div_four]
    exact mul_pos (mul_pos hd (by norm_num)) (by positivity)
  refine ⟨?_, rfl, ?_⟩
  · rw [hxz]
    simp only [atan2, if_pos hzpos]
    rw [div_self hzpos.ne', Real.arctan_one]
  · intro d hd0
    have hpi := Real.pi_pos
    simp only [minAzimuthAngle, maxAzimuthAngle, clamp]
    rw [min_eq_right (by linarith), max_eq_right (by linarith)]

/-- Witness for C9 at bounding size (10,10,10) and fov 90°, with azimuth
increment 1. -/
theorem c9_framed_azimuth_at_max_witness :
    atan2 (frame ⟨10, 10, 10⟩ 90).position.x (frame ⟨10, 10, 10⟩ 90).position.z
      = Real.pi / 4
    ∧ maxAzimuthAngle = Real.pi / 4
    ∧ clamp (Real.pi / 4 + 1) minAzimuthAngle maxAzimuthAngle = Real.pi / 4 := by
  have h := c9_framed_azimuth_at_max ⟨10, 10, 10⟩ 90 (by norm_num [max_self])
    (by norm_num) (by norm_num)
  exact ⟨h.1, h.2.1, h.2.2 1 (by norm_num)⟩

/-- C10: while the shift-drag gesture is active, any mouseup — whatever
button is released and whether or not shift is still held — exits dolly mode
and re-enables orbit; a pointer move with the modifier already released
still keeps the gesture active and still dollies the camera. -/
theorem c10_mouseup_exits_dolly (s : ViewerState) (h : s.isShiftDragging = true) :
    (∀ b k, (applyEvent (.mouseup b k) s).isShiftDragging = false
      ∧ (applyEvent (.mouseup b k) s).enabled = true)
    ∧ (∀ y k, (applyEvent (.mousemove y k) s).isShiftDragging = true
      ∧ (applyEvent (.mousemove y k) s).camPos
          = s.camPos.addScaledVector s.camDir (-(y - s.previousY) * zoomSpeed)) := by
  constructor
  · intro b k
    simp [applyEvent, onMouseup, h]
  · intro y k
    simp [applyEvent, onMousemove, h]

/-- Witness for C10: in the sample drag state, a mouseup of button 2 with
shift released exits the gesture; a pointer move without shift still
translates the camera. -/
theorem c10_mouseup_exits_dolly_witness :
    ((applyEvent (.mouseup 2 false) sampleDragState).isShiftDragging = false
      ∧ (applyEvent (.mouseup 2 false) sampleDragState).enabled = true)
    ∧ ((applyEvent (.mousemove 260 false) sampleDragState).isShiftDragging = true
      ∧ (applyEvent (.mousemove 260 false) sampleDragState).camPos
          = sampleDragState.camPos.addScaledVector sampleDragState.camDir
              (-(260 - sampleDragState.previousY) * zoomSpeed)) :=
  ⟨(c10_mouseup_exits_dolly sampleDragState rfl).1 2 false,
   (c10_mouseup_exits_dolly sampleDragState rfl).2 260 false⟩

end
